import Mathlib

/-!
RasterBucket (src/mbgl/renderer/buckets/raster_bucket.cpp)

A shallow embedding of `mbgl::RasterBucket`: its two constructors, `upload`,
`clear`, `setImage`, `hasData` and the two `render` overloads, as pure
functions on an explicit bucket state, an explicit graphics-context state and
an explicit painter state.

The header of the class, the image type, the graphics context, the painter
and the layer and tile types are not part of the sources at hand; they are
gathered in `Backend`, `RenderTypes` and `Dispatcher`, and every theorem is
proved for arbitrary ones.
-/

namespace mbgl

/-- Modelled from the spec: the declarations `raster_bucket.cpp` relies on and
that live in headers outside the sources: the decoded image type
(`PremultipliedImage`), the GPU handle types, the element types of the local
geometry, and the three operations consumed from the Graphics Context
collaborator (spec §6: `createTexture`, `createVertexBuffer`,
`createIndexBuffer`).  `State` is whatever the context keeps between calls.
`createTexture` reads the image through a const reference.  The two buffer
operations receive the local vector as an rvalue (`std::move`), so besides the
handle they also decide what is left in the caller's vector; that remainder is
the middle component of their result.  Failure of a GPU allocation (spec §7,
delegated to the context) is outside this model: every operation returns. -/
structure Backend where
  Image : Type
  Texture : Type
  VertexBuffer : Type
  IndexBuffer : Type
  Vertex : Type
  Index : Type
  Segment : Type
  State : Type
  createTexture : State → Image → Texture × State
  createVertexBuffer : State → List Vertex → VertexBuffer × List Vertex × State
  createIndexBuffer : State → List Index → IndexBuffer × List Index × State

/-- A non-null `std::shared_ptr<PremultipliedImage>`: the address of the
control block (handle identity) and the pixels it points to.  The null handle
is `none` in `Option (SharedImage B)`. -/
structure SharedImage (B : Backend) where
  address : Nat
  pixels : B.Image

/-- A request received by the graphics context, with its argument. -/
inductive Request (B : Backend) where
  | createTexture (image : B.Image)
  | createVertexBuffer (vertices : List B.Vertex)
  | createIndexBuffer (indices : List B.Index)

/-- Whether a request is a `createTexture` request. -/
def Request.isCreateTexture {B : Backend} : Request B → Bool
  | Request.createTexture _ => true
  | _ => false

/-- Whether a request is a `createVertexBuffer` or `createIndexBuffer` request. -/
def Request.isCreateBuffer {B : Backend} : Request B → Bool
  | Request.createTexture _ => false
  | _ => true

/-- Modelled from the spec: `gl::Context` as seen from the bucket: the state of
the collaborator together with the requests it has received so far, oldest
first. -/
structure Context (B : Backend) where
  state : B.State
  requests : List (Request B)

/-- Modelled from the spec: `context.createTexture(image)`: the request is
recorded and the backend produces the handle. -/
def Context.createTexture {B : Backend} (context : Context B) (image : B.Image) :
    B.Texture × Context B :=
  let r := B.createTexture context.state image
  (r.1, { state := r.2, requests := context.requests ++ [Request.createTexture image] })

/-- Modelled from the spec: `context.createVertexBuffer(std::move(vertices))`:
returns the handle, what is left in the moved-from vector, and the context. -/
def Context.createVertexBuffer {B : Backend} (context : Context B) (vertices : List B.Vertex) :
    B.VertexBuffer × List B.Vertex × Context B :=
  let r := B.createVertexBuffer context.state vertices
  (r.1, r.2.1,
    { state := r.2.2, requests := context.requests ++ [Request.createVertexBuffer vertices] })

/-- Modelled from the spec: `context.createIndexBuffer(std::move(indices))`:
returns the handle, what is left in the moved-from vector, and the context. -/
def Context.createIndexBuffer {B : Backend} (context : Context B) (indices : List B.Index) :
    B.IndexBuffer × List B.Index × Context B :=
  let r := B.createIndexBuffer context.state indices
  (r.1, r.2.1,
    { state := r.2.2, requests := context.requests ++ [Request.createIndexBuffer indices] })

/-- The requests a context received after the moment `before` was taken. -/
def Context.requestsSince {B : Backend} (before after : Context B) : List (Request B) :=
  after.requests.drop before.requests.length

/-- The data members of `RasterBucket` that `raster_bucket.cpp` reads or
writes (`uploaded` is inherited from `Bucket`). -/
structure RasterBucket (B : Backend) where
  image : Option (SharedImage B)
  texture : Option B.Texture
  vertexBuffer : Option B.VertexBuffer
  indexBuffer : Option B.IndexBuffer
  vertices : List B.Vertex
  indices : List B.Index
  segments : List B.Segment
  uploaded : Bool

namespace RasterBucket

variable {B : Backend}

/-- Modelled from the spec: the member initialisers of the class declaration
(the header is outside the sources): no GPU handle, empty local geometry,
`uploaded == false`; `image` is what the constructor body stores. -/
def initial (image : Option (SharedImage B)) : RasterBucket B :=
  { image := image, texture := none, vertexBuffer := none, indexBuffer := none,
    vertices := [], indices := [], segments := [], uploaded := false }

/-- `RasterBucket::RasterBucket(PremultipliedImage&& image_)` (lines 12-14):
`image = std::make_shared<PremultipliedImage>(std::move(image_))`.  `address`
is the address `make_shared` allocates. -/
def fromImage (address : Nat) (image_ : B.Image) : RasterBucket B :=
  initial (some { address := address, pixels := image_ })

/-- `RasterBucket::RasterBucket(std::shared_ptr<PremultipliedImage> image_)`
(lines 16-18): `image(image_)`; the handle may be null. -/
def fromShared (image_ : Option (SharedImage B)) : RasterBucket B :=
  initial image_

/-- `RasterBucket::hasData` (lines 62-64): `return !!image;`. -/
def hasData (s : RasterBucket B) : Bool :=
  s.image.isSome

/-- Lines 23-25 of `upload`: `if (!texture) texture = context.createTexture(*image);`
where `pixels` is `*image`. -/
def uploadTexture (s : RasterBucket B) (pixels : B.Image) (context : Context B) :
    RasterBucket B × Context B :=
  match s.texture with
  | some _ => (s, context)
  | none =>
    let r := context.createTexture pixels
    ({ s with texture := some r.1 }, r.2)

/-- Lines 26-29 of `upload`: when `vertices` is not empty, first the vertex
buffer and then the index buffer is created from the moved local vector. -/
def uploadGeometry (s : RasterBucket B) (context : Context B) :
    RasterBucket B × Context B :=
  if s.vertices.isEmpty then (s, context)
  else
    let v := context.createVertexBuffer s.vertices
    let i := v.2.2.createIndexBuffer s.indices
    ({ s with vertexBuffer := some v.1, vertices := v.2.1,
              indexBuffer := some i.1, indices := i.2.1 }, i.2.2)

/-- `RasterBucket::upload` (lines 19-31). -/
def upload (s : RasterBucket B) (context : Context B) : RasterBucket B × Context B :=
  if !s.hasData then (s, context)
  else
    match s.image with
    | none => (s, context)
    | some img =>
      let t := s.uploadTexture img.pixels context
      let g := t.1.uploadGeometry t.2
      ({ g.1 with uploaded := true }, g.2)

/-- `RasterBucket::clear` (lines 33-41). -/
def clear (s : RasterBucket B) : RasterBucket B :=
  { s with vertexBuffer := none, indexBuffer := none, segments := [],
           vertices := [], indices := [], uploaded := false }

/-- `RasterBucket::setImage` (lines 43-47). -/
def setImage (s : RasterBucket B) (image_ : Option (SharedImage B)) : RasterBucket B :=
  { s with image := image_, texture := none, uploaded := false }

/-- The first constructor (lines 12-14) run while the graphics context is
`context`: its body holds no call on a context, which is handed back as it
was. -/
def constructFromImage (address : Nat) (image_ : B.Image) (context : Context B) :
    RasterBucket B × Context B :=
  (fromImage address image_, context)

/-- The second constructor (lines 16-18) run while the graphics context is
`context`: its body is empty, the context is handed back as it was. -/
def constructFromShared (image_ : Option (SharedImage B)) (context : Context B) :
    RasterBucket B × Context B :=
  (fromShared image_, context)

end RasterBucket

/-! ## A concrete backend, used to evaluate the model on explicit inputs -/

/-- A small backend: images are pixel lists, a texture remembers its GL name
and the pixels it was created from, buffers remember their GL name and their
contents, the context state is the next free GL name, and the buffer
operations empty the vector that is moved into them. -/
@[reducible] def demoBackend : Backend where
  Image := List Nat
  Texture := Nat × List Nat
  VertexBuffer := Nat × List (Int × Int)
  IndexBuffer := Nat × List Nat
  Vertex := Int × Int
  Index := Nat
  Segment := Nat
  State := Nat
  createTexture := fun st img => ((st, img), st + 1)
  createVertexBuffer := fun st vs => ((st, vs), [], st + 1)
  createIndexBuffer := fun st ix => ((st, ix), [], st + 1)

/-- A context that has not received any request. -/
def demoContext : Context demoBackend :=
  { state := 1, requests := [] }

/-- An image handle at address 100. -/
def imgA : SharedImage demoBackend :=
  { address := 100, pixels := [255, 0, 0, 255] }

/-- Another image handle, with other pixels. -/
def imgB : SharedImage demoBackend :=
  { address := 200, pixels := [0, 255, 0, 255] }

/-- A handle at another address whose pixels equal those of `imgA`. -/
def imgACopy : SharedImage demoBackend :=
  { address := 300, pixels := [255, 0, 0, 255] }

/-- A bucket built from `imgA` whose local geometry was filled in by the
tessellation step (one quad). -/
def demoTessellated : RasterBucket demoBackend :=
  { RasterBucket.fromShared (some imgA) with
    vertices := [(0, 0), (8192, 0), (0, 8192), (8192, 8192)],
    indices := [0, 1, 2, 1, 2, 3],
    segments := [0] }

/-- The state `demoTessellated` is in after one `upload`. -/
def demoUploaded : RasterBucket demoBackend :=
  (demoTessellated.upload demoContext).1

/-! ## Sequences of calls -/

/-- A call of one of the three mutating member functions of a bucket. -/
inductive Call (B : Backend) where
  | upload
  | clear
  | setImage (image_ : Option (SharedImage B))

/-- Whether a call is `upload`. -/
def Call.isUpload {B : Backend} : Call B → Bool
  | Call.upload => true
  | _ => false

/-- Whether a call is `setImage`. -/
def Call.isSetImage {B : Backend} : Call B → Bool
  | Call.setImage _ => true
  | _ => false

/-- One call made on the bucket while the graphics context is in the given
state: `upload` is handed the context, `clear` and `setImage` are not and
leave it as it is. -/
def step {B : Backend} (call : Call B) (w : RasterBucket B × Context B) :
    RasterBucket B × Context B :=
  match call with
  | Call.upload => w.1.upload w.2
  | Call.clear => (w.1.clear, w.2)
  | Call.setImage image_ => (w.1.setImage image_, w.2)

/-- A finite sequence of calls, made from left to right. -/
def run {B : Backend} (calls : List (Call B)) (w : RasterBucket B × Context B) :
    RasterBucket B × Context B :=
  calls.foldl (fun v call => step call v) w

/-- The number of `createTexture` requests among the given requests. -/
def textureRequestCount {B : Backend} (requests : List (Request B)) : Nat :=
  requests.countP Request.isCreateTexture

/-! ## The two `render` overloads -/

/-- Modelled from the spec: the declarations the two `render` overloads rely
on and that live in headers outside the sources: the frame parameters
(`PaintParameters`), the layer types, the checked downcast
`layer.as<RenderRasterLayer>()` (null, here `none`, when the layer is not a
raster layer), the matrix type `mat4`, and a tile with its member `matrix`. -/
structure RenderTypes where
  PaintParameters : Type
  RenderLayer : Type
  RenderRasterLayer : Type
  Mat4 : Type
  RenderTile : Type
  asRaster : RenderLayer → Option RenderRasterLayer
  tileMatrix : RenderTile → Mat4

/-- The arguments of one `painter.renderRaster(parameters, bucket, layer,
matrix, flag)` call. -/
structure RenderRasterRequest (B : Backend) (T : RenderTypes) where
  parameters : T.PaintParameters
  bucket : RasterBucket B
  layer : T.RenderRasterLayer
  matrix : T.Mat4
  flag : Bool

/-- Modelled from the spec: the Render Dispatcher collaborator (`Painter`,
spec §6): what it keeps between calls and how a `renderRaster` request
changes that.  It reads the bucket it is handed. -/
structure Dispatcher (B : Backend) (T : RenderTypes) where
  State : Type
  renderRaster : State → RenderRasterRequest B T → State

/-- Modelled from the spec: a `Painter` as seen from the bucket: the state of
the dispatcher together with the `renderRaster` requests it has received so
far, oldest first. -/
structure Painter {B : Backend} {T : RenderTypes} (D : Dispatcher B T) where
  state : D.State
  requests : List (RenderRasterRequest B T)

/-- Modelled from the spec: `painter.renderRaster(...)`: the request is
recorded and handed to the dispatcher. -/
def Painter.renderRaster {B : Backend} {T : RenderTypes} {D : Dispatcher B T}
    (painter : Painter D) (request : RenderRasterRequest B T) : Painter D :=
  { state := D.renderRaster painter.state request,
    requests := painter.requests ++ [request] }

/-- `RasterBucket::render(Painter&, PaintParameters&, const RenderLayer&,
const RenderTile&)` (lines 48-53).  The result is the bucket and the painter
after the call; `none` stands for the undefined behaviour of dereferencing the
null pointer `layer.as<RenderRasterLayer>()` returns for a non-raster layer. -/
def RasterBucket.renderTile {B : Backend} {T : RenderTypes} {D : Dispatcher B T}
    (s : RasterBucket B) (painter : Painter D) (parameters : T.PaintParameters)
    (layer : T.RenderLayer) (tile : T.RenderTile) : Option (RasterBucket B × Painter D) :=
  match T.asRaster layer with
  | none => none
  | some rasterLayer =>
    some (s, painter.renderRaster
      { parameters := parameters, bucket := s, layer := rasterLayer,
        matrix := T.tileMatrix tile, flag := false })

/-- `RasterBucket::render(Painter&, PaintParameters&, const RenderLayer&,
const mat4&)` (lines 55-60), with the same conventions as `renderTile`. -/
def RasterBucket.renderMatrix {B : Backend} {T : RenderTypes} {D : Dispatcher B T}
    (s : RasterBucket B) (painter : Painter D) (parameters : T.PaintParameters)
    (layer : T.RenderLayer) (matrix : T.Mat4) : Option (RasterBucket B × Painter D) :=
  match T.asRaster layer with
  | none => none
  | some rasterLayer =>
    some (s, painter.renderRaster
      { parameters := parameters, bucket := s, layer := rasterLayer,
        matrix := matrix, flag := true })

/-- Concrete render types: a layer is a raster layer (`some` of its id) or
not (`none`), a matrix is a list of entries, a tile is an id and its matrix. -/
@[reducible] def demoRenderTypes : RenderTypes where
  PaintParameters := Nat
  RenderLayer := Option Nat
  RenderRasterLayer := Nat
  Mat4 := List Int
  RenderTile := Nat × List Int
  asRaster := fun layer => layer
  tileMatrix := fun tile => tile.2

/-- A dispatcher that counts the draws it was asked for. -/
@[reducible] def demoDispatcher : Dispatcher demoBackend demoRenderTypes where
  State := Nat
  renderRaster := fun n _ => n + 1

/-- A painter that has not received any request. -/
def demoPainter : Painter demoDispatcher :=
  { state := 0, requests := [] }

/-! ## Shared lemmas -/

namespace RasterBucket

variable {B : Backend}

/-- With an image present `upload` runs its three steps in order. -/
theorem upload_of_image (s : RasterBucket B) (context : Context B) (img : SharedImage B)
    (h : s.image = some img) :
    s.upload context =
      ({ ((s.uploadTexture img.pixels context).1.uploadGeometry
            (s.uploadTexture img.pixels context).2).1 with uploaded := true },
        ((s.uploadTexture img.pixels context).1.uploadGeometry
            (s.uploadTexture img.pixels context).2).2) := by
  simp [upload, hasData, h]

/-- Without an image `upload` returns at once. -/
theorem upload_of_no_image (s : RasterBucket B) (context : Context B) (h : s.image = none) :
    s.upload context = (s, context) := by
  simp [upload, hasData, h]

/-- The texture step leaves a texture behind. -/
theorem uploadTexture_texture_isSome (s : RasterBucket B) (pixels : B.Image)
    (context : Context B) : (s.uploadTexture pixels context).1.texture.isSome = true := by
  unfold uploadTexture
  cases h : s.texture <;> simp [h]

/-- The texture step keeps a texture that is already there and asks nothing. -/
theorem uploadTexture_of_texture (s : RasterBucket B) (pixels : B.Image) (context : Context B)
    (t : B.Texture) (h : s.texture = some t) : s.uploadTexture pixels context = (s, context) := by
  simp [uploadTexture, h]

/-- Without a texture, the texture step stores the one the context creates. -/
theorem uploadTexture_of_no_texture (s : RasterBucket B) (pixels : B.Image) (context : Context B)
    (h : s.texture = none) :
    s.uploadTexture pixels context =
      ({ s with texture := some (context.createTexture pixels).1 },
        (context.createTexture pixels).2) := by
  simp [uploadTexture, h]

/-- The texture step only writes `texture`. -/
theorem uploadTexture_frame (s : RasterBucket B) (pixels : B.Image) (context : Context B) :
    (s.uploadTexture pixels context).1.image = s.image ∧
    (s.uploadTexture pixels context).1.vertexBuffer = s.vertexBuffer ∧
    (s.uploadTexture pixels context).1.indexBuffer = s.indexBuffer ∧
    (s.uploadTexture pixels context).1.vertices = s.vertices ∧
    (s.uploadTexture pixels context).1.indices = s.indices ∧
    (s.uploadTexture pixels context).1.segments = s.segments ∧
    (s.uploadTexture pixels context).1.uploaded = s.uploaded := by
  unfold uploadTexture
  cases h : s.texture <;> simp [h]

/-- The geometry step with empty `vertices` does nothing. -/
theorem uploadGeometry_of_empty (s : RasterBucket B) (context : Context B)
    (h : s.vertices = []) : s.uploadGeometry context = (s, context) := by
  simp [uploadGeometry, h]

/-- The geometry step only writes the buffers and the local vectors. -/
theorem uploadGeometry_frame (s : RasterBucket B) (context : Context B) :
    (s.uploadGeometry context).1.image = s.image ∧
    (s.uploadGeometry context).1.texture = s.texture ∧
    (s.uploadGeometry context).1.segments = s.segments ∧
    (s.uploadGeometry context).1.uploaded = s.uploaded := by
  unfold uploadGeometry
  split <;> simp

/-- The geometry step never sends a `createTexture` request: what it appends
to the request log are buffer requests only. -/
theorem uploadGeometry_requests (s : RasterBucket B) (context : Context B) :
    ∃ extra : List (Request B),
      (s.uploadGeometry context).2.requests = context.requests ++ extra ∧
      ∀ r ∈ extra, r.isCreateTexture = false := by
  unfold uploadGeometry
  split
  · exact ⟨[], by simp, by simp⟩
  · refine ⟨[Request.createVertexBuffer s.vertices, Request.createIndexBuffer s.indices], ?_, ?_⟩
    · simp [Context.createVertexBuffer, Context.createIndexBuffer]
    · intro r hr
      simp at hr
      rcases hr with rfl | rfl <;> rfl

/-- The buffers after the geometry step: present when `vertices` was non-empty,
otherwise as before. -/
theorem uploadGeometry_buffers (s : RasterBucket B) (context : Context B) :
    ((s.uploadGeometry context).1.vertexBuffer.isSome = true ↔
      (s.vertices ≠ [] ∨ s.vertexBuffer.isSome = true)) ∧
    ((s.uploadGeometry context).1.indexBuffer.isSome = true ↔
      (s.vertices ≠ [] ∨ s.indexBuffer.isSome = true)) := by
  unfold uploadGeometry
  cases hv : s.vertices <;> simp

/-- With an image present, `upload` leaves a texture behind. -/
theorem upload_texture_isSome_of_image (s : RasterBucket B) (context : Context B)
    (img : SharedImage B) (h : s.image = some img) :
    (s.upload context).1.texture.isSome = true := by
  rw [upload_of_image s context img h]
  show ((s.uploadTexture img.pixels context).1.uploadGeometry _).1.texture.isSome = true
  rw [(uploadGeometry_frame _ _).2.1]
  exact uploadTexture_texture_isSome s img.pixels context

/-- The image handle is the same after `upload`. -/
theorem upload_image (s : RasterBucket B) (context : Context B) :
    (s.upload context).1.image = s.image := by
  cases h : s.image with
  | none => rw [upload_of_no_image s context h, h]
  | some img =>
    rw [upload_of_image s context img h]
    show ((s.uploadTexture img.pixels context).1.uploadGeometry _).1.image = some img
    rw [(uploadGeometry_frame _ _).1, (uploadTexture_frame _ _ _).1, h]

end RasterBucket

/-! ## Claims about `upload`, `setImage` and the constructors -/

namespace RasterBucket

variable {B : Backend}

/-- C1 (as stated, refuted): `demoUploaded` holds an image and its local
`vertices` are empty (the first upload moved them into the vertex buffer), yet
after `upload` the vertex buffer and the index buffer are present: their
presence is not equivalent to the geometry being non-empty at the call. -/
theorem upload_buffers_iff_geometry_fails :
    demoUploaded.hasData = true ∧
    ¬ (((demoUploaded.upload (demoTessellated.upload demoContext).2).1.vertexBuffer.isSome = true ∧
        (demoUploaded.upload (demoTessellated.upload demoContext).2).1.indexBuffer.isSome = true) ↔
       demoUploaded.vertices ≠ []) := by
  refine ⟨rfl, ?_⟩
  intro h
  exact h.mp ⟨rfl, rfl⟩ rfl

/-- C1 (amended): for every bucket state with an image present and every
context, after `upload` the texture is present, and the vertex buffer (resp.
the index buffer) is present if and only if `vertices` was non-empty at the
call or that buffer was already present before the call. -/
theorem upload_texture_and_buffers (s : RasterBucket B) (context : Context B)
    (h : s.hasData = true) :
    (s.upload context).1.texture.isSome = true ∧
    ((s.upload context).1.vertexBuffer.isSome = true ↔
      (s.vertices ≠ [] ∨ s.vertexBuffer.isSome = true)) ∧
    ((s.upload context).1.indexBuffer.isSome = true ↔
      (s.vertices ≠ [] ∨ s.indexBuffer.isSome = true)) := by
  obtain ⟨img, himg⟩ := Option.isSome_iff_exists.mp h
  have hf := uploadTexture_frame s img.pixels context
  have hb := uploadGeometry_buffers (s.uploadTexture img.pixels context).1
    (s.uploadTexture img.pixels context).2
  refine ⟨upload_texture_isSome_of_image s context img himg, ?_, ?_⟩
  · have h1 := hb.1
    rw [hf.2.2.2.1, hf.2.1] at h1
    rw [upload_of_image s context img himg]
    exact h1
  · have h2 := hb.2
    rw [hf.2.2.2.1, hf.2.2.1] at h2
    rw [upload_of_image s context img himg]
    exact h2

/-- Witness of C1 (amended) on the fresh bucket of `imgA` with empty geometry:
the texture is created and the buffers stay absent. -/
theorem upload_texture_and_buffers_witness :
    (fromShared (some imgA)).hasData = true ∧
    (((fromShared (some imgA)).upload demoContext).1.texture.isSome = true ∧
     (((fromShared (some imgA)).upload demoContext).1.vertexBuffer.isSome = true ↔
       ((fromShared (some imgA)).vertices ≠ [] ∨
        (fromShared (some imgA)).vertexBuffer.isSome = true)) ∧
     (((fromShared (some imgA)).upload demoContext).1.indexBuffer.isSome = true ↔
       ((fromShared (some imgA)).vertices ≠ [] ∨
        (fromShared (some imgA)).indexBuffer.isSome = true))) :=
  ⟨rfl, upload_texture_and_buffers (fromShared (some imgA)) demoContext rfl⟩

/-- C2: for every bucket state with an image present, a second `upload` right
after a first one keeps the texture of the first call (which is present) and
sends no `createTexture` request: everything the second call appends to the
request log is a buffer request. -/
theorem upload_twice_same_texture (s : RasterBucket B) (context : Context B)
    (h : s.hasData = true) :
    (s.upload context).1.texture.isSome = true ∧
    ((s.upload context).1.upload (s.upload context).2).1.texture = (s.upload context).1.texture ∧
    ∃ extra : List (Request B),
      ((s.upload context).1.upload (s.upload context).2).2.requests =
        (s.upload context).2.requests ++ extra ∧
      ∀ r ∈ extra, r.isCreateTexture = false := by
  obtain ⟨img, himg⟩ := Option.isSome_iff_exists.mp h
  have hsome := upload_texture_isSome_of_image s context img himg
  obtain ⟨t, ht⟩ := Option.isSome_iff_exists.mp hsome
  have himg1 : (s.upload context).1.image = some img := by
    rw [upload_image s context, himg]
  refine ⟨hsome, ?_, ?_⟩
  · rw [upload_of_image _ _ img himg1, uploadTexture_of_texture _ _ _ t ht]
    show ((s.upload context).1.uploadGeometry _).1.texture = _
    exact (uploadGeometry_frame _ _).2.1
  · rw [upload_of_image _ _ img himg1, uploadTexture_of_texture _ _ _ t ht]
    exact uploadGeometry_requests _ _

/-- Witness of C2 on the tessellated bucket of `imgA`. -/
theorem upload_twice_same_texture_witness :
    demoTessellated.hasData = true ∧
    ((demoTessellated.upload demoContext).1.texture.isSome = true ∧
     ((demoTessellated.upload demoContext).1.upload
        (demoTessellated.upload demoContext).2).1.texture =
       (demoTessellated.upload demoContext).1.texture ∧
     ∃ extra : List (Request demoBackend),
       ((demoTessellated.upload demoContext).1.upload
          (demoTessellated.upload demoContext).2).2.requests =
         (demoTessellated.upload demoContext).2.requests ++ extra ∧
       ∀ r ∈ extra, r.isCreateTexture = false) :=
  ⟨rfl, upload_twice_same_texture demoTessellated demoContext rfl⟩

/-- C3: for every bucket state and every image handle (null included), after
`setImage` the image is the new handle, the texture is absent and `uploaded`
is false; in particular when the new handle is the very handle already held,
and when the bucket holds a handle and the new one is another handle (any
address) to equal pixels. -/
theorem setImage_resets_texture (s : RasterBucket B) (newImage : Option (SharedImage B))
    (address otherAddress : Nat) (pixels : B.Image) :
    ((s.setImage newImage).image = newImage ∧
      (s.setImage newImage).texture = none ∧
      (s.setImage newImage).uploaded = false) ∧
    ((s.setImage s.image).image = s.image ∧
      (s.setImage s.image).texture = none ∧
      (s.setImage s.image).uploaded = false) ∧
    ((setImage { s with image := some { address := address, pixels := pixels } }
        (some { address := otherAddress, pixels := pixels })).image =
        some { address := otherAddress, pixels := pixels } ∧
      (setImage { s with image := some { address := address, pixels := pixels } }
        (some { address := otherAddress, pixels := pixels })).texture = none ∧
      (setImage { s with image := some { address := address, pixels := pixels } }
        (some { address := otherAddress, pixels := pixels })).uploaded = false) :=
  ⟨⟨rfl, rfl, rfl⟩, ⟨rfl, rfl, rfl⟩, ⟨rfl, rfl, rfl⟩⟩

/-- C4: for all image handles `a` and `b` and every context: the bucket
constructed from `a` is, after `upload`, uploaded with the texture the context
creates from the pixels of `a`; after `setImage b` it is not uploaded; after a
further `upload` it is uploaded with the texture the context (in the state the
first upload left it in) creates from the pixels of `b`.  The first upload
sends exactly the request `createTexture` of the pixels of `a`, the second
exactly `createTexture` of the pixels of `b`. -/
theorem construct_upload_setImage_upload (a b : SharedImage B) (context : Context B) :
    ((fromShared (some a)).upload context).1.uploaded = true ∧
    ((fromShared (some a)).upload context).1.texture =
      some (context.createTexture a.pixels).1 ∧
    ((fromShared (some a)).upload context).2.requests =
      context.requests ++ [Request.createTexture a.pixels] ∧
    ((((fromShared (some a)).upload context).1.setImage (some b)).uploaded = false) ∧
    ((((fromShared (some a)).upload context).1.setImage (some b)).upload
        ((fromShared (some a)).upload context).2).1.uploaded = true ∧
    ((((fromShared (some a)).upload context).1.setImage (some b)).upload
        ((fromShared (some a)).upload context).2).1.texture =
      some ((((fromShared (some a)).upload context).2).createTexture b.pixels).1 ∧
    ((((fromShared (some a)).upload context).1.setImage (some b)).upload
        ((fromShared (some a)).upload context).2).2.requests =
      ((fromShared (some a)).upload context).2.requests ++ [Request.createTexture b.pixels] :=
  ⟨rfl, rfl, rfl, rfl, rfl, rfl, rfl⟩

/-- C5: a bucket whose image handle is null, such as the one constructed from
a null handle, has `hasData() == false`, and `upload` returns it and the
context exactly as they were (no field changes, no request is sent); for the
bucket constructed from a null handle `uploaded` is false before and after. -/
theorem upload_without_image (s : RasterBucket B) (context : Context B)
    (h : s.image = none) :
    s.hasData = false ∧
    s.upload context = (s, context) ∧
    (s.upload context).2.requests = context.requests ∧
    (s.upload context).1.uploaded = s.uploaded ∧
    (fromShared (none : Option (SharedImage B))).image = none ∧
    (fromShared (none : Option (SharedImage B))).uploaded = false ∧
    ((fromShared (none : Option (SharedImage B))).upload context).1.uploaded = false := by
  have hu := upload_of_no_image s context h
  refine ⟨?_, hu, ?_, ?_, rfl, rfl, rfl⟩
  · simp [hasData, h]
  · rw [hu]
  · rw [hu]

/-- Witness of C5 on the bucket constructed from a null handle. -/
theorem upload_without_image_witness :
    (fromShared (none : Option (SharedImage demoBackend))).image = none ∧
    ((fromShared (none : Option (SharedImage demoBackend))).hasData = false ∧
     (fromShared (none : Option (SharedImage demoBackend))).upload demoContext =
       (fromShared (none : Option (SharedImage demoBackend)), demoContext) ∧
     ((fromShared (none : Option (SharedImage demoBackend))).upload demoContext).2.requests =
       demoContext.requests ∧
     ((fromShared (none : Option (SharedImage demoBackend))).upload demoContext).1.uploaded =
       (fromShared (none : Option (SharedImage demoBackend))).uploaded ∧
     (fromShared (none : Option (SharedImage demoBackend))).image = none ∧
     (fromShared (none : Option (SharedImage demoBackend))).uploaded = false ∧
     ((fromShared (none : Option (SharedImage demoBackend))).upload demoContext).1.uploaded =
       false) :=
  ⟨rfl, upload_without_image (fromShared none) demoContext rfl⟩

/-! ## Claims about `hasData`, the constructors and `clear` -/

/-- C6: `hasData()` is true exactly when the image handle is non-null, and it
has the same value in every state with the same image handle, whatever the
texture, the buffers, the local geometry, the segments and `uploaded` are. -/
theorem hasData_iff_image (s : RasterBucket B) (texture : Option B.Texture)
    (vertexBuffer : Option B.VertexBuffer) (indexBuffer : Option B.IndexBuffer)
    (vertices : List B.Vertex) (indices : List B.Index) (segments : List B.Segment)
    (uploaded : Bool) :
    (s.hasData = true ↔ s.image ≠ none) ∧
    hasData { image := s.image, texture := texture, vertexBuffer := vertexBuffer,
              indexBuffer := indexBuffer, vertices := vertices, indices := indices,
              segments := segments, uploaded := uploaded } = s.hasData := by
  refine ⟨?_, rfl⟩
  unfold hasData
  cases s.image <;> simp

/-- C7: a bucket constructed from a decoded image, by the constructor that
takes the image by value (whatever address the new handle gets) or by the one
that takes a non-null shared handle, has `hasData() == true`,
`uploaded == false`, no texture, no vertex buffer and no index buffer, and the
graphics context is after the construction as it was before: it received no
request. -/
theorem constructed_has_data_not_uploaded (address : Nat) (pixels : B.Image)
    (handle : SharedImage B) (context : Context B) :
    ((constructFromImage address pixels context).1.hasData = true ∧
      (constructFromImage address pixels context).1.uploaded = false ∧
      (constructFromImage address pixels context).1.texture = none ∧
      (constructFromImage address pixels context).1.vertexBuffer = none ∧
      (constructFromImage address pixels context).1.indexBuffer = none ∧
      (constructFromImage address pixels context).2 = context ∧
      Context.requestsSince context (constructFromImage address pixels context).2 = []) ∧
    ((constructFromShared (some handle) context).1.hasData = true ∧
      (constructFromShared (some handle) context).1.uploaded = false ∧
      (constructFromShared (some handle) context).1.texture = none ∧
      (constructFromShared (some handle) context).1.vertexBuffer = none ∧
      (constructFromShared (some handle) context).1.indexBuffer = none ∧
      (constructFromShared (some handle) context).2 = context ∧
      Context.requestsSince context (constructFromShared (some handle) context).2 = []) := by
  refine ⟨⟨rfl, rfl, rfl, rfl, rfl, rfl, ?_⟩, ⟨rfl, rfl, rfl, rfl, rfl, rfl, ?_⟩⟩
  · simp [Context.requestsSince, constructFromImage]
  · simp [Context.requestsSince, constructFromShared]

/-- C8: for every bucket state, after `clear()` the vertex buffer and the
index buffer are absent, the segments, the local vertices and the local
indices are empty, and `uploaded` is false. -/
theorem clear_releases_geometry (s : RasterBucket B) :
    s.clear.vertexBuffer = none ∧
    s.clear.indexBuffer = none ∧
    s.clear.segments = [] ∧
    s.clear.vertices = [] ∧
    s.clear.indices = [] ∧
    s.clear.uploaded = false :=
  ⟨rfl, rfl, rfl, rfl, rfl, rfl⟩

/-- C9 (as stated, refuted): `demoUploaded` holds a texture, a vertex buffer
and an index buffer; after `clear()` the texture is still held, so the three
GPU references are not all absent. -/
theorem clear_keeps_a_gpu_reference :
    demoUploaded.texture = some (1, [255, 0, 0, 255]) ∧
    demoUploaded.clear.texture = some (1, [255, 0, 0, 255]) ∧
    ¬ (demoUploaded.clear.texture = none ∧
       demoUploaded.clear.vertexBuffer = none ∧
       demoUploaded.clear.indexBuffer = none) := by
  refine ⟨rfl, rfl, ?_⟩
  intro h
  exact absurd h.1 (by decide)

/-- C9 (amended): for every bucket state, whether or not geometry buffers
existed before the call, after `clear()` the vertex buffer and the index
buffer are absent, while the texture reference is not dropped: it is the one
held before the call (absent only if it was absent). -/
theorem clear_drops_buffers_keeps_texture (s : RasterBucket B) :
    s.clear.vertexBuffer = none ∧
    s.clear.indexBuffer = none ∧
    s.clear.texture = s.texture ∧
    (s.clear.texture.isSome = s.texture.isSome) :=
  ⟨rfl, rfl, rfl, rfl⟩

/-- C10: for every bucket state, `clear()` leaves the image handle and the
texture handle as they were, so `hasData()` has the same value after `clear()`
as before it; on a bucket constructed from an image and uploaded, `hasData()`
is true and the texture is present both before and after `clear()`. -/
theorem clear_preserves_image_and_texture (s : RasterBucket B) (handle : SharedImage B)
    (context : Context B) :
    s.clear.image = s.image ∧
    s.clear.texture = s.texture ∧
    s.clear.hasData = s.hasData ∧
    (((fromShared (some handle)).upload context).1.hasData = true ∧
      ((fromShared (some handle)).upload context).1.clear.hasData = true ∧
      ((fromShared (some handle)).upload context).1.clear.texture =
        some (context.createTexture handle.pixels).1) :=
  ⟨rfl, rfl, rfl, rfl, rfl, rfl⟩

end RasterBucket

/-! ## Shared lemmas on sequences of calls -/

/-- The empty sequence changes nothing. -/
theorem run_nil {B : Backend} (w : RasterBucket B × Context B) : run [] w = w := rfl

/-- A sequence is run from its first call on. -/
theorem run_cons {B : Backend} (call : Call B) (calls : List (Call B))
    (w : RasterBucket B × Context B) : run (call :: calls) w = run calls (step call w) := rfl

/-- The last call of a sequence is made on the state the others lead to. -/
theorem run_append_singleton {B : Backend} (calls : List (Call B)) (call : Call B)
    (w : RasterBucket B × Context B) : run (calls ++ [call]) w = step call (run calls w) := by
  simp [run, List.foldl_append]

/-- Running two sequences one after the other. -/
theorem run_append {B : Backend} (calls more : List (Call B))
    (w : RasterBucket B × Context B) : run (calls ++ more) w = run more (run calls w) := by
  simp [run, List.foldl_append]

/-- A call keeps: an uploaded bucket holds an image and a texture. -/
theorem step_uploaded_inv {B : Backend} (call : Call B) (w : RasterBucket B × Context B)
    (h : w.1.uploaded = true → w.1.image.isSome = true ∧ w.1.texture.isSome = true) :
    (step call w).1.uploaded = true →
      (step call w).1.image.isSome = true ∧ (step call w).1.texture.isSome = true := by
  cases call with
  | upload =>
    have hs : step Call.upload w = w.1.upload w.2 := rfl
    rw [hs]
    cases himg : w.1.image with
    | none =>
      rw [RasterBucket.upload_of_no_image w.1 w.2 himg]
      intro hu
      have hw := (h hu).1
      rw [himg] at hw
      exact absurd hw (by simp)
    | some img =>
      intro _
      refine ⟨?_, RasterBucket.upload_texture_isSome_of_image w.1 w.2 img himg⟩
      rw [RasterBucket.upload_image, himg]
      rfl
  | clear =>
    intro hu
    exact absurd hu (by simp [step, RasterBucket.clear])
  | setImage image_ =>
    intro hu
    exact absurd hu (by simp [step, RasterBucket.setImage])

/-- Every sequence of calls keeps: an uploaded bucket holds an image and a
texture. -/
theorem run_uploaded_inv {B : Backend} (calls : List (Call B)) :
    ∀ w : RasterBucket B × Context B,
      (w.1.uploaded = true → w.1.image.isSome = true ∧ w.1.texture.isSome = true) →
      (run calls w).1.uploaded = true →
        (run calls w).1.image.isSome = true ∧ (run calls w).1.texture.isSome = true := by
  induction calls with
  | nil => intro w h; exact h
  | cons call calls ih =>
    intro w h
    rw [run_cons]
    exact ih (step call w) (step_uploaded_inv call w h)

/-- Requests that are not `createTexture` requests do not count. -/
theorem textureRequestCount_append {B : Backend} (xs ys : List (Request B)) :
    textureRequestCount (xs ++ ys) = textureRequestCount xs + textureRequestCount ys := by
  simp [textureRequestCount, List.countP_append]

/-- What the geometry step appends holds no `createTexture` request. -/
theorem uploadGeometry_textureRequestCount {B : Backend} (s : RasterBucket B)
    (context : Context B) :
    textureRequestCount (s.uploadGeometry context).2.requests =
      textureRequestCount context.requests := by
  obtain ⟨extra, hreq, hno⟩ := RasterBucket.uploadGeometry_requests s context
  rw [hreq, textureRequestCount_append]
  have h0 : textureRequestCount extra = 0 := by
    unfold textureRequestCount
    rw [List.countP_eq_zero]
    intro r hr
    simp [hno r hr]
  omega

/-- An `upload` sends one `createTexture` request when the bucket has an image
and no texture, and none otherwise. -/
theorem upload_textureRequestCount {B : Backend} (s : RasterBucket B) (context : Context B) :
    textureRequestCount (s.upload context).2.requests =
      textureRequestCount context.requests +
        (if (s.hasData && s.texture.isNone) = true then 1 else 0) := by
  cases himg : s.image with
  | none =>
    rw [RasterBucket.upload_of_no_image s context himg]
    simp [RasterBucket.hasData, himg]
  | some img =>
    rw [RasterBucket.upload_of_image s context img himg]
    show textureRequestCount ((s.uploadTexture img.pixels context).1.uploadGeometry _).2.requests = _
    rw [uploadGeometry_textureRequestCount]
    cases htex : s.texture with
    | some t =>
      rw [RasterBucket.uploadTexture_of_texture s img.pixels context t htex]
      simp [RasterBucket.hasData, himg]
    | none =>
      rw [RasterBucket.uploadTexture_of_no_texture s img.pixels context htex]
      simp [RasterBucket.hasData, himg, Context.createTexture, textureRequestCount,
        List.countP_append, Request.isCreateTexture]

/-- A call only appends to the request log of the context. -/
theorem step_requests_append {B : Backend} (call : Call B) (w : RasterBucket B × Context B) :
    ∃ extra : List (Request B), (step call w).2.requests = w.2.requests ++ extra := by
  cases call with
  | upload =>
    have hs : step Call.upload w = w.1.upload w.2 := rfl
    rw [hs]
    cases himg : w.1.image with
    | none =>
      rw [RasterBucket.upload_of_no_image w.1 w.2 himg]
      exact ⟨[], by simp⟩
    | some img =>
      rw [RasterBucket.upload_of_image w.1 w.2 img himg]
      obtain ⟨extra, hreq, _⟩ := RasterBucket.uploadGeometry_requests
        (w.1.uploadTexture img.pixels w.2).1 (w.1.uploadTexture img.pixels w.2).2
      show ∃ extra, ((w.1.uploadTexture img.pixels w.2).1.uploadGeometry _).2.requests = _
      rw [hreq]
      cases htex : w.1.texture with
      | some t =>
        rw [RasterBucket.uploadTexture_of_texture w.1 img.pixels w.2 t htex]
        exact ⟨extra, rfl⟩
      | none =>
        rw [RasterBucket.uploadTexture_of_no_texture w.1 img.pixels w.2 htex]
        exact ⟨[Request.createTexture img.pixels] ++ extra, by
          simp [Context.createTexture]⟩
  | clear => exact ⟨[], by simp [step]⟩
  | setImage image_ => exact ⟨[], by simp [step]⟩

/-- A sequence of calls only appends to the request log of the context. -/
theorem run_requests_append {B : Backend} (calls : List (Call B)) :
    ∀ w : RasterBucket B × Context B,
      ∃ extra : List (Request B), (run calls w).2.requests = w.2.requests ++ extra := by
  induction calls with
  | nil => intro w; exact ⟨[], by simp [run_nil]⟩
  | cons call calls ih =>
    intro w
    rw [run_cons]
    obtain ⟨e1, h1⟩ := step_requests_append call w
    obtain ⟨e2, h2⟩ := ih (step call w)
    exact ⟨e1 ++ e2, by rw [h2, h1, List.append_assoc]⟩

/-- The requests received since the start of a sequence of calls are what the
log has grown by. -/
theorem requestsSince_run {B : Backend} (calls : List (Call B))
    (w : RasterBucket B × Context B) :
    (run calls w).2.requests = w.2.requests ++ Context.requestsSince w.2 (run calls w).2 := by
  obtain ⟨extra, h⟩ := run_requests_append calls w
  unfold Context.requestsSince
  rw [h, List.drop_left]

/-- In a sequence of `upload` and `clear` calls, one `createTexture` request is
sent when the bucket has an image, has no texture, and some call is an
`upload`; otherwise none is sent. -/
theorem run_textureRequestCount {B : Backend} (calls : List (Call B)) :
    ∀ w : RasterBucket B × Context B, (∀ call ∈ calls, call.isSetImage = false) →
      textureRequestCount (run calls w).2.requests =
        textureRequestCount w.2.requests +
          (if (w.1.hasData && w.1.texture.isNone && calls.any Call.isUpload) = true
            then 1 else 0) := by
  induction calls with
  | nil => intro w _; simp [run_nil]
  | cons call calls ih =>
    intro w hno
    have hrest : ∀ c ∈ calls, c.isSetImage = false :=
      fun c hc => hno c (List.mem_cons_of_mem _ hc)
    rw [run_cons, ih (step call w) hrest]
    cases call with
    | upload =>
      have hs : step Call.upload w = w.1.upload w.2 := rfl
      rw [hs, upload_textureRequestCount]
      cases himg : w.1.image with
      | none =>
        rw [RasterBucket.upload_of_no_image w.1 w.2 himg]
        simp [RasterBucket.hasData, himg]
      | some img =>
        have ht := RasterBucket.upload_texture_isSome_of_image w.1 w.2 img himg
        have hi : (w.1.upload w.2).1.hasData = true := by
          unfold RasterBucket.hasData
          rw [RasterBucket.upload_image, himg]
          rfl
        have hn : (w.1.upload w.2).1.texture.isNone = false := by
          cases hx : (w.1.upload w.2).1.texture with
          | none => rw [hx] at ht; exact absurd ht (by simp)
          | some t => rfl
        simp only [hi, hn, RasterBucket.hasData, himg, Call.isUpload, List.any_cons]
        cases w.1.texture.isNone <;> cases calls.any Call.isUpload <;> simp
    | clear =>
      have hany : (Call.clear :: calls).any Call.isUpload = calls.any Call.isUpload := by
        simp [Call.isUpload]
      rw [hany]
      rfl
    | setImage image_ =>
      exact absurd (hno (Call.setImage image_) (List.mem_cons_self _ _)) (by simp [Call.isSetImage])

/-- The number of `createTexture` requests received during a sequence of
`upload` and `clear` calls. -/
theorem run_textureRequestCount_since {B : Backend} (calls : List (Call B))
    (w : RasterBucket B × Context B) (hno : ∀ call ∈ calls, call.isSetImage = false) :
    textureRequestCount (Context.requestsSince w.2 (run calls w).2) =
      (if (w.1.hasData && w.1.texture.isNone && calls.any Call.isUpload) = true
        then 1 else 0) := by
  have h1 := run_textureRequestCount calls w hno
  rw [requestsSince_run calls w, textureRequestCount_append] at h1
  omega

/-- With an image and a texture present, `upload` keeps the texture. -/
theorem upload_texture_of_texture {B : Backend} (s : RasterBucket B) (context : Context B)
    (img : SharedImage B) (t : B.Texture) (himg : s.image = some img)
    (htex : s.texture = some t) : (s.upload context).1.texture = some t := by
  rw [RasterBucket.upload_of_image s context img himg,
    RasterBucket.uploadTexture_of_texture s img.pixels context t htex]
  show (s.uploadGeometry context).1.texture = some t
  rw [(RasterBucket.uploadGeometry_frame s context).2.1, htex]

/-- With an image present and no texture, `upload` stores the texture the
context creates from the pixels of the image. -/
theorem upload_texture_of_no_texture {B : Backend} (s : RasterBucket B) (context : Context B)
    (img : SharedImage B) (himg : s.image = some img) (htex : s.texture = none) :
    (s.upload context).1.texture = some (context.createTexture img.pixels).1 := by
  rw [RasterBucket.upload_of_image s context img himg,
    RasterBucket.uploadTexture_of_no_texture s img.pixels context htex]
  show (RasterBucket.uploadGeometry _ _).1.texture = _
  rw [(RasterBucket.uploadGeometry_frame _ _).2.1]

/-- Where a texture held after a sequence of calls comes from: some `upload`
of the sequence found an image and no texture and stored the texture the
context created from the pixels of that image; no `setImage` was called
afterwards, and the image is still the same handle. -/
theorem run_texture_origin {B : Backend} (w0 : RasterBucket B × Context B)
    (h0 : w0.1.texture = none) (calls : List (Call B)) :
    ∀ t : B.Texture, (run calls w0).1.texture = some t →
      ∃ (img : SharedImage B) (before after : List (Call B)),
        calls = before ++ Call.upload :: after ∧
        (∀ call ∈ after, call.isSetImage = false) ∧
        (run before w0).1.texture = none ∧
        (run before w0).1.image = some img ∧
        (run calls w0).1.image = some img ∧
        t = ((run before w0).2.createTexture img.pixels).1 := by
  induction calls using List.reverseRecOn with
  | nil =>
    intro t ht
    rw [run_nil, h0] at ht
    exact absurd ht (by simp)
  | append_singleton calls call ih =>
    intro t ht
    rw [run_append_singleton] at ht
    rw [run_append_singleton]
    cases call with
    | upload =>
      have hs : step Call.upload (run calls w0) = (run calls w0).1.upload (run calls w0).2 := rfl
      rw [hs] at ht
      rw [hs]
      cases htex : (run calls w0).1.texture with
      | none =>
        cases himg : (run calls w0).1.image with
        | none =>
          rw [RasterBucket.upload_of_no_image _ _ himg, htex] at ht
          exact absurd ht (by simp)
        | some img =>
          rw [upload_texture_of_no_texture _ _ img himg htex] at ht
          refine ⟨img, calls, [], rfl, by simp, htex, himg, ?_, ?_⟩
          · rw [RasterBucket.upload_image, himg]
          · exact (Option.some.inj ht).symm
      | some t0 =>
        obtain ⟨img, before, after, hsplit, hno, hnone, hthen, hnow, hmade⟩ := ih t0 htex
        rw [upload_texture_of_texture _ _ img t0 hnow htex] at ht
        refine ⟨img, before, after ++ [Call.upload], ?_, ?_, hnone, hthen, ?_, ?_⟩
        · rw [hsplit]; simp
        · intro call hc
          rcases List.mem_append.mp hc with hc | hc
          · exact hno call hc
          · rw [List.mem_singleton.mp hc]; rfl
        · rw [RasterBucket.upload_image, hnow]
        · rw [← Option.some.inj ht]; exact hmade
    | clear =>
      obtain ⟨img, before, after, hsplit, hno, hnone, hthen, hnow, hmade⟩ := ih t ht
      refine ⟨img, before, after ++ [Call.clear], ?_, ?_, hnone, hthen, hnow, hmade⟩
      · rw [hsplit]; simp
      · intro call hc
        rcases List.mem_append.mp hc with hc | hc
        · exact hno call hc
        · rw [List.mem_singleton.mp hc]; rfl
    | setImage image_ =>
      exact absurd ht (by simp [step, RasterBucket.setImage])

/-! ## Claims about reachable states, `setImage` and `render` -/

namespace RasterBucket

variable {B : Backend}

/-- C11: in every state reached from a constructed bucket (image handle null
or not) by a finite sequence of `upload`, `clear` and `setImage` calls, if
`uploaded` is true and the image is present then the texture is present. -/
theorem reachable_uploaded_has_texture (image_ : Option (SharedImage B)) (context : Context B)
    (calls : List (Call B))
    (hu : (run calls (fromShared image_, context)).1.uploaded = true)
    (_hi : (run calls (fromShared image_, context)).1.image.isSome = true) :
    (run calls (fromShared image_, context)).1.texture.isSome = true :=
  (run_uploaded_inv calls (fromShared image_, context)
    (fun h => absurd h (by simp [fromShared, initial])) hu).2

/-- Witness of C11: construct from `imgA`, upload, set `imgB`, clear, upload. -/
theorem reachable_uploaded_has_texture_witness :
    (run [Call.upload, Call.setImage (some imgB), Call.clear, Call.upload]
      (fromShared (some imgA), demoContext)).1.uploaded = true ∧
    (run [Call.upload, Call.setImage (some imgB), Call.clear, Call.upload]
      (fromShared (some imgA), demoContext)).1.image.isSome = true ∧
    (run [Call.upload, Call.setImage (some imgB), Call.clear, Call.upload]
      (fromShared (some imgA), demoContext)).1.texture.isSome = true :=
  ⟨rfl, rfl, reachable_uploaded_has_texture (some imgA) demoContext
    [Call.upload, Call.setImage (some imgB), Call.clear, Call.upload] rfl rfl⟩

/-- C12 (as stated, refuted): handing `setImage` the null handle leaves a
bucket that has no data, so the state after `setImage` is not always
HasData/NotUploaded. -/
theorem setImage_null_has_no_data :
    demoUploaded.hasData = true ∧
    ¬ ((demoUploaded.setImage none).hasData = true ∧
       (demoUploaded.setImage none).uploaded = false) := by
  refine ⟨rfl, ?_⟩
  intro h
  exact absurd h.1 (by decide)

/-- C12 (amended): for every bucket state, after `setImage` `uploaded` is
false and `hasData()` is true exactly when the handle passed is non-null: a
non-null handle leads to HasData/NotUploaded, the null handle to a bucket
without data. -/
theorem setImage_state (s : RasterBucket B) (handle : SharedImage B)
    (image_ : Option (SharedImage B)) :
    ((s.setImage (some handle)).hasData = true ∧
      (s.setImage (some handle)).uploaded = false) ∧
    ((s.setImage none).hasData = false ∧ (s.setImage none).uploaded = false) ∧
    ((s.setImage image_).hasData = image_.isSome ∧ (s.setImage image_).uploaded = false) :=
  ⟨⟨rfl, rfl⟩, ⟨rfl, rfl⟩, ⟨rfl, rfl⟩⟩

/-- C13: for every bucket state (with or without an image) and every layer
that is a raster layer, each `render` overload returns with the bucket
unchanged and with exactly one more request recorded by the dispatcher: a
`renderRaster` request carrying the frame parameters, the bucket itself and
the layer as a raster layer; with the tile's matrix and the flag `false` for
the tile overload, with the supplied matrix and the flag `true` for the
other.  The same holds for the bucket constructed from a null handle. -/
theorem render_dispatches_once {T : RenderTypes} {D : Dispatcher B T} (s : RasterBucket B)
    (painter : Painter D) (parameters : T.PaintParameters) (layer : T.RenderLayer)
    (rasterLayer : T.RenderRasterLayer) (tile : T.RenderTile) (matrix : T.Mat4)
    (h : T.asRaster layer = some rasterLayer) :
    (∃ after : Painter D,
      s.renderTile painter parameters layer tile = some (s, after) ∧
      after.requests = painter.requests ++
        [{ parameters := parameters, bucket := s, layer := rasterLayer,
           matrix := T.tileMatrix tile, flag := false }]) ∧
    (∃ after : Painter D,
      s.renderMatrix painter parameters layer matrix = some (s, after) ∧
      after.requests = painter.requests ++
        [{ parameters := parameters, bucket := s, layer := rasterLayer,
           matrix := matrix, flag := true }]) ∧
    (∃ after : Painter D,
      (fromShared none).renderTile painter parameters layer tile =
        some (fromShared none, after) ∧
      after.requests = painter.requests ++
        [{ parameters := parameters, bucket := fromShared none, layer := rasterLayer,
           matrix := T.tileMatrix tile, flag := false }]) ∧
    (∃ after : Painter D,
      (fromShared none).renderMatrix painter parameters layer matrix =
        some (fromShared none, after) ∧
      after.requests = painter.requests ++
        [{ parameters := parameters, bucket := fromShared none, layer := rasterLayer,
           matrix := matrix, flag := true }]) := by
  refine ⟨⟨painter.renderRaster _, ?_, rfl⟩, ⟨painter.renderRaster _, ?_, rfl⟩,
    ⟨painter.renderRaster _, ?_, rfl⟩, ⟨painter.renderRaster _, ?_, rfl⟩⟩
  · simp only [renderTile, h]
  · simp only [renderMatrix, h]
  · simp only [renderTile, h]
  · simp only [renderMatrix, h]

/-- Witness of C13: the bucket of `imgA` after one upload, raster layer 3,
tile 5. -/
theorem render_dispatches_once_witness :
    demoRenderTypes.asRaster (some 3) = some 3 ∧
    ((∃ after : Painter demoDispatcher,
      demoUploaded.renderTile demoPainter 7 (some 3) (5, [1, 0, 0, 1]) =
        some (demoUploaded, after) ∧
      after.requests = demoPainter.requests ++
        [{ parameters := 7, bucket := demoUploaded, layer := 3,
           matrix := demoRenderTypes.tileMatrix (5, [1, 0, 0, 1]), flag := false }]) ∧
    (∃ after : Painter demoDispatcher,
      demoUploaded.renderMatrix demoPainter 7 (some 3) [2, 0, 0, 2] =
        some (demoUploaded, after) ∧
      after.requests = demoPainter.requests ++
        [{ parameters := 7, bucket := demoUploaded, layer := 3,
           matrix := [2, 0, 0, 2], flag := true }]) ∧
    (∃ after : Painter demoDispatcher,
      (fromShared none).renderTile demoPainter 7 (some 3) (5, [1, 0, 0, 1]) =
        some (fromShared none, after) ∧
      after.requests = demoPainter.requests ++
        [{ parameters := 7, bucket := fromShared none, layer := 3,
           matrix := demoRenderTypes.tileMatrix (5, [1, 0, 0, 1]), flag := false }]) ∧
    (∃ after : Painter demoDispatcher,
      (fromShared none).renderMatrix demoPainter 7 (some 3) [2, 0, 0, 2] =
        some (fromShared none, after) ∧
      after.requests = demoPainter.requests ++
        [{ parameters := 7, bucket := fromShared none, layer := 3,
           matrix := [2, 0, 0, 2], flag := true }])) :=
  ⟨rfl, render_dispatches_once demoUploaded demoPainter 7 (some 3) 3 (5, [1, 0, 0, 1])
    [2, 0, 0, 2] rfl⟩

/-- C14: for every bucket state and every image handle, `setImage` leaves the
vertex buffer, the index buffer, the local vertices, the local indices and the
segments as they were: the state after the call is the state before it with
`image`, `texture` and `uploaded` overwritten. -/
theorem setImage_frame (s : RasterBucket B) (image_ : Option (SharedImage B)) :
    (s.setImage image_).vertexBuffer = s.vertexBuffer ∧
    (s.setImage image_).indexBuffer = s.indexBuffer ∧
    (s.setImage image_).vertices = s.vertices ∧
    (s.setImage image_).indices = s.indices ∧
    (s.setImage image_).segments = s.segments ∧
    s.setImage image_ =
      { image := image_, texture := none, vertexBuffer := s.vertexBuffer,
        indexBuffer := s.indexBuffer, vertices := s.vertices, indices := s.indices,
        segments := s.segments, uploaded := false } :=
  ⟨rfl, rfl, rfl, rfl, rfl, rfl⟩

/-- C15: `clear` is idempotent: for every bucket state, clearing twice gives
the state that clearing once gives.  `clear` is defined on every state; on a
bucket without image and without GPU resources it changes nothing. -/
theorem clear_idempotent (s : RasterBucket B) :
    s.clear.clear = s.clear ∧
    (fromShared (none : Option (SharedImage B))).clear = fromShared none ∧
    (∃ t : RasterBucket B, s.clear = t) :=
  ⟨rfl, rfl, ⟨s.clear, rfl⟩⟩

/-! ## Claims about texture creation over sequences of calls -/

/-- C16 (as stated, refuted): just after `setImage` of the null handle, the
sequence consisting of one `upload` holds no `setImage` and holds an `upload`,
yet no `createTexture` request is sent, not exactly one. -/
theorem setImage_null_then_upload_creates_nothing :
    (∀ call ∈ [(Call.upload : Call demoBackend)], call.isSetImage = false) ∧
    [(Call.upload : Call demoBackend)].any Call.isUpload = true ∧
    textureRequestCount (Context.requestsSince demoContext
      (run [Call.upload] (demoUploaded.setImage none, demoContext)).2) = 0 ∧
    ¬ (textureRequestCount (Context.requestsSince demoContext
      (run [Call.upload] (demoUploaded.setImage none, demoContext)).2) = 1) := by
  refine ⟨?_, rfl, rfl, by decide⟩
  intro call hc
  rw [List.mem_singleton.mp hc]
  rfl

/-- C16 (amended): for a bucket just constructed from a handle, or just after
a `setImage` of a handle, every finite sequence of `upload` and `clear` calls
holding no `setImage` sends at most one `createTexture` request; it sends
exactly one if the handle is non-null and the sequence holds an `upload`, and
none otherwise (in particular none when the handle is null). -/
theorem texture_created_once_per_image (s : RasterBucket B) (image_ : Option (SharedImage B))
    (context : Context B) (calls : List (Call B))
    (hno : ∀ call ∈ calls, call.isSetImage = false) :
    textureRequestCount (Context.requestsSince context
        (run calls (s.setImage image_, context)).2) =
      (if (image_.isSome && calls.any Call.isUpload) = true then 1 else 0) ∧
    textureRequestCount (Context.requestsSince context
        (run calls (fromShared image_, context)).2) =
      (if (image_.isSome && calls.any Call.isUpload) = true then 1 else 0) ∧
    textureRequestCount (Context.requestsSince context
        (run calls (s.setImage image_, context)).2) ≤ 1 ∧
    textureRequestCount (Context.requestsSince context
        (run calls (fromShared image_, context)).2) ≤ 1 := by
  have h1 := run_textureRequestCount_since calls (s.setImage image_, context) hno
  have h2 := run_textureRequestCount_since calls (fromShared image_, context) hno
  have e1 : ((s.setImage image_, context).1.hasData &&
      (s.setImage image_, context).1.texture.isNone && calls.any Call.isUpload) =
      (image_.isSome && calls.any Call.isUpload) := by
    show (image_.isSome && true && calls.any Call.isUpload) = _
    rw [Bool.and_true]
  have e2 : ((fromShared image_, context).1.hasData &&
      (fromShared image_, context).1.texture.isNone && calls.any Call.isUpload) =
      (image_.isSome && calls.any Call.isUpload) := by
    show (image_.isSome && true && calls.any Call.isUpload) = _
    rw [Bool.and_true]
  rw [e1] at h1
  rw [e2] at h2
  refine ⟨h1, h2, ?_, ?_⟩
  · rw [h1]; split <;> omega
  · rw [h2]; split <;> omega

/-- Witness of C16 (amended): the bucket of `imgA` after `setImage imgB`, then
upload, clear, upload: one `createTexture` request. -/
theorem texture_created_once_per_image_witness :
    (∀ call ∈ [(Call.upload : Call demoBackend), Call.clear, Call.upload],
      call.isSetImage = false) ∧
    (textureRequestCount (Context.requestsSince demoContext
        (run [Call.upload, Call.clear, Call.upload]
          (demoUploaded.setImage (some imgB), demoContext)).2) =
      (if ((some imgB).isSome &&
          [(Call.upload : Call demoBackend), Call.clear, Call.upload].any Call.isUpload) = true
        then 1 else 0) ∧
    textureRequestCount (Context.requestsSince demoContext
        (run [Call.upload, Call.clear, Call.upload]
          (fromShared (some imgB), demoContext)).2) =
      (if ((some imgB).isSome &&
          [(Call.upload : Call demoBackend), Call.clear, Call.upload].any Call.isUpload) = true
        then 1 else 0) ∧
    textureRequestCount (Context.requestsSince demoContext
        (run [Call.upload, Call.clear, Call.upload]
          (demoUploaded.setImage (some imgB), demoContext)).2) ≤ 1 ∧
    textureRequestCount (Context.requestsSince demoContext
        (run [Call.upload, Call.clear, Call.upload]
          (fromShared (some imgB), demoContext)).2) ≤ 1) :=
  ⟨by decide, texture_created_once_per_image demoUploaded (some imgB) demoContext
    [Call.upload, Call.clear, Call.upload] (by decide)⟩

/-- C17: in every state reached from a constructed bucket by a finite sequence
of `upload`, `clear` and `setImage` calls, a texture that is present comes
with an image that is present, and it is the texture the context created from
the pixels of that image: it was stored by an `upload` of the sequence that
found this image and no texture, and no `setImage` was called since. -/
theorem reachable_texture_from_current_image (image_ : Option (SharedImage B))
    (context : Context B) (calls : List (Call B)) (t : B.Texture)
    (h : (run calls (fromShared image_, context)).1.texture = some t) :
    ∃ (img : SharedImage B) (before after : List (Call B)),
      (run calls (fromShared image_, context)).1.image = some img ∧
      calls = before ++ Call.upload :: after ∧
      (∀ call ∈ after, call.isSetImage = false) ∧
      (run before (fromShared image_, context)).1.texture = none ∧
      (run before (fromShared image_, context)).1.image = some img ∧
      t = ((run before (fromShared image_, context)).2.createTexture img.pixels).1 := by
  obtain ⟨img, before, after, hsplit, hno, hnone, hthen, hnow, hmade⟩ :=
    run_texture_origin (fromShared image_, context) rfl calls t h
  exact ⟨img, before, after, hnow, hsplit, hno, hnone, hthen, hmade⟩

/-- Witness of C17: construct from `imgA`, upload, set `imgB`, upload, clear:
the texture held is the one created from the pixels of `imgB`. -/
theorem reachable_texture_from_current_image_witness :
    (run [Call.upload, Call.setImage (some imgB), Call.upload, Call.clear]
      (fromShared (some imgA), demoContext)).1.texture = some (2, [0, 255, 0, 255]) ∧
    ∃ (img : SharedImage demoBackend) (before after : List (Call demoBackend)),
      (run [Call.upload, Call.setImage (some imgB), Call.upload, Call.clear]
        (fromShared (some imgA), demoContext)).1.image = some img ∧
      [Call.upload, Call.setImage (some imgB), Call.upload, Call.clear] =
        before ++ Call.upload :: after ∧
      (∀ call ∈ after, call.isSetImage = false) ∧
      (run before (fromShared (some imgA), demoContext)).1.texture = none ∧
      (run before (fromShared (some imgA), demoContext)).1.image = some img ∧
      ((2, [0, 255, 0, 255]) : demoBackend.Texture) =
        ((run before (fromShared (some imgA), demoContext)).2.createTexture img.pixels).1 :=
  ⟨rfl, reachable_texture_from_current_image (some imgA) demoContext
    [Call.upload, Call.setImage (some imgB), Call.upload, Call.clear] (2, [0, 255, 0, 255]) rfl⟩

/-- C18: for every bucket state with an image present, after `clear()`
followed by `upload(context)` the bucket is uploaded and holds a texture, the
vertex buffer and the index buffer are absent, and none of the requests the
context received is a `createVertexBuffer` or `createIndexBuffer` request. -/
theorem clear_then_upload_creates_no_buffers (s : RasterBucket B) (context : Context B)
    (h : s.hasData = true) :
    (s.clear.upload context).1.uploaded = true ∧
    (s.clear.upload context).1.texture.isSome = true ∧
    (s.clear.upload context).1.vertexBuffer = none ∧
    (s.clear.upload context).1.indexBuffer = none ∧
    ∀ r ∈ Context.requestsSince context (s.clear.upload context).2,
      r.isCreateBuffer = false := by
  obtain ⟨img, himg⟩ := Option.isSome_iff_exists.mp h
  have hc : s.clear.image = some img := himg
  have hf := uploadTexture_frame s.clear img.pixels context
  have hv : (s.clear.uploadTexture img.pixels context).1.vertices = [] := hf.2.2.2.1
  have hu := upload_of_image s.clear context img hc
  rw [uploadGeometry_of_empty _ _ hv] at hu
  refine ⟨?_, upload_texture_isSome_of_image s.clear context img hc, ?_, ?_, ?_⟩
  · rw [hu]
  · rw [hu]; exact hf.2.1
  · rw [hu]; exact hf.2.2.1
  · rw [hu]
    show ∀ r ∈ Context.requestsSince context (s.clear.uploadTexture img.pixels context).2, _
    cases htex : s.texture with
    | some t =>
      rw [uploadTexture_of_texture s.clear img.pixels context t htex]
      simp [Context.requestsSince]
    | none =>
      rw [uploadTexture_of_no_texture s.clear img.pixels context htex]
      simp [Context.requestsSince, Context.createTexture, Request.isCreateBuffer]

/-- Witness of C18 on the tessellated bucket of `imgA`: its geometry is
dropped by `clear`, the upload that follows creates the texture only. -/
theorem clear_then_upload_creates_no_buffers_witness :
    demoTessellated.hasData = true ∧
    ((demoTessellated.clear.upload demoContext).1.uploaded = true ∧
     (demoTessellated.clear.upload demoContext).1.texture.isSome = true ∧
     (demoTessellated.clear.upload demoContext).1.vertexBuffer = none ∧
     (demoTessellated.clear.upload demoContext).1.indexBuffer = none ∧
     ∀ r ∈ Context.requestsSince demoContext (demoTessellated.clear.upload demoContext).2,
       r.isCreateBuffer = false) :=
  ⟨rfl, clear_then_upload_creates_no_buffers demoTessellated demoContext rfl⟩

end RasterBucket

end mbgl
